import Mathlib

/-!
Verification of gis2mesh.py from the pputils repository.

The script is a straight line pipeline orchestrator: it parses six
positional file arguments, calls gis2triangle.py to build mesh.poly,
appends a regional area attribute block to mesh.poly, runs the Triangle
engine for the detected platform, calls triangle2adcirc.py, removes the
intermediate files, and calls adcirc2wkt.py.  We embed it shallowly: the
pure area block construction becomes Lean functions, and the whole run
becomes a function from an environment description to a trace of
observable events plus a termination outcome.
-/

namespace Gis2Mesh

/-- One parsed row of the areas csv file: x, y and the maximum triangle
area, i.e. the columns that np.loadtxt produces at line 128 of
gis2mesh.py.  The parsed floating point values are modelled as
rationals. -/
structure AreaRow where
  x : ℚ
  y : ℚ
  area : ℚ
deriving DecidableEq

/-- One regional attribute record appended to mesh.poly: the five
whitespace separated fields written by lines 144 to 151 of gis2mesh.py
(sequential id, x, y, the literal attribute 0, maximum area). -/
structure PolyAreaRecord where
  id : ℕ
  x : ℚ
  y : ℚ
  attr : ℕ
  maxArea : ℚ
deriving DecidableEq

/-- Lines 143 to 146 of gis2mesh.py: the branch taken when num_areas is
exactly 1.  A one line file makes np.loadtxt with unpack return a flat
array, so the record is built from areas_data at indices 0, 1 and 2, with
the id written as the literal 1 and the attribute as the literal 0. -/
def singleAreaLine (r : AreaRow) : PolyAreaRecord :=
  ⟨1, r.x, r.y, 0, r.area⟩

/-- Lines 147 to 151 of gis2mesh.py: the general branch.  For each i
below num_areas it writes record i + 1 from column i of areas_data.  The
fallback value for an out of range index models the IndexError case,
which cannot occur for a well formed file. -/
def multiAreaLines (rows : List AreaRow) : List PolyAreaRecord :=
  (List.range rows.length).map fun i =>
    match rows[i]? with
    | some r => ⟨i + 1, r.x, r.y, 0, r.area⟩
    | none => ⟨i + 1, 0, 0, 0, 0⟩

/-- Line 132 of gis2mesh.py: num_areas is the number of lines of the
areas file.  We model the file as its list of parsed rows, one row per
line. -/
def num_areas (rows : List AreaRow) : ℕ :=
  rows.length

/-- Lines 142 to 151 of gis2mesh.py: the list of regional attribute
records appended to mesh.poly, with the special case for a single area
constraint row. -/
def areaBlock (rows : List AreaRow) : List PolyAreaRecord :=
  match rows with
  | [r] => [singleAreaLine r]
  | _ => multiAreaLines rows

lemma multiAreaLines_getElem?_eq (rows : List AreaRow) (i : ℕ) (r : AreaRow)
    (h : rows[i]? = some r) :
    (multiAreaLines rows)[i]? = some ⟨i + 1, r.x, r.y, 0, r.area⟩ := by
  have hi : i < rows.length := by
    by_contra hc
    push_neg at hc
    rw [List.getElem?_eq_none hc] at h
    exact Option.noConfusion h
  unfold multiAreaLines
  rw [List.getElem?_map, List.getElem?_range hi]
  simp [h]

lemma areaBlock_getElem?_eq (rows : List AreaRow) (i : ℕ) (r : AreaRow)
    (h : rows[i]? = some r) :
    (areaBlock rows)[i]? = some ⟨i + 1, r.x, r.y, 0, r.area⟩ := by
  match rows with
  | [] => simp at h
  | [a] =>
    match i with
    | 0 =>
      simp at h
      subst h
      rfl
    | (n + 1) => simp at h
  | a :: b :: t =>
    have hab : areaBlock (a :: b :: t) = multiAreaLines (a :: b :: t) := rfl
    rw [hab]
    exact multiAreaLines_getElem?_eq _ _ _ h

lemma areaBlock_length (rows : List AreaRow) :
    (areaBlock rows).length = rows.length := by
  match rows with
  | [] => rfl
  | [a] => rfl
  | a :: b :: t => simp [areaBlock, multiAreaLines]

/-- C2: a single area constraint row goes through the special branch at
lines 143 to 146 rather than the general loop, yet the two branches
agree: on a one row listing the special branch emits exactly the record
with id 1, the coordinates, attribute 0 and the maximum area that the
general loop would emit, and a two row listing produces the correctly
sequenced records with ids 1 and 2. -/
theorem single_multi_area_branch_equiv (r s : AreaRow) :
    areaBlock [r] = multiAreaLines [r] ∧
    areaBlock [r] = [⟨1, r.x, r.y, 0, r.area⟩] ∧
    areaBlock [r, s] = [⟨1, r.x, r.y, 0, r.area⟩, ⟨2, s.x, s.y, 0, s.area⟩] :=
  ⟨rfl, rfl, rfl⟩

/-- One line of the mesh.poly file after the append at lines 138 to 151:
either a line already written by gis2triangle.py, the lone newline, the
count line holding str of num_areas, or one regional attribute record. -/
inductive PolyLine where
  | raw (s : String)
  | blank
  | count (n : ℕ)
  | area (r : PolyAreaRecord)
deriving DecidableEq

/-- Observable effects of one run of gis2mesh.py. -/
inductive Event where
  | print (msg : String)
  | subproc (cmd : List String)
  | appendAreas (count : ℕ) (records : List PolyAreaRecord)
  | remove (file : String)
deriving DecidableEq

/-- Uncaught Python exceptions the script can die with.
removeFileNotFound is the uncaught error raised by os.remove at line 187
when the Triangle engine wrote no output files. -/
inductive PyErr where
  | nameErrorPystr
  | areasLoadError
  | removeFileNotFound
deriving DecidableEq

/-- How the run terminates.  finished is falling off the end of the
script, with interpreter exit status 0.  sysExit is the bare sys.exit()
call, an early termination that also carries exit status 0.  uncaught is
an uncaught exception: a traceback and a nonzero exit status. -/
inductive Outcome where
  | finished
  | sysExit
  | uncaught (e : PyErr)
deriving DecidableEq

/-- The environment one run of gis2mesh.py observes.  triangle_exit is
the exit status of the external Triangle engine: the script never reads
it, which is itself one of the facts proved below.
engine_outputs_exist says whether the engine output files mesh.1.poly,
mesh.1.node and mesh.1.ele are present at cleanup time (the engine
writes the three together); the script never tests it either, but the
unguarded os.remove of mesh.1.poly at line 187 raises when they are
absent.  mesh.poly itself always exists at that point, since the append
at line 138 opens it in append mode and creates it if needed. -/
structure World where
  argv : List String
  pputils_env : Option String
  curdir : String
  os_name : String
  proctype : String
  areas_readable : Bool
  areas_rows : List AreaRow
  poly_before : List String
  gis2triangle_direct_raises : Bool
  triangle2adcirc_direct_raises : Bool
  adcirc2wkt_direct_raises : Bool
  triangle_exit : ℤ
  engine_outputs_exist : Bool
deriving DecidableEq

/-- Lines 85 to 89 of gis2mesh.py: the installation root is the PPUTILS
environment variable when set, the current working directory otherwise. -/
def pputils_path (w : World) : String :=
  match w.pputils_env with
  | some p => p
  | none => w.curdir

/-- Lines 85 to 97 of gis2mesh.py: pystr is assigned only inside the
except branch, i.e. only when the PPUTILS lookup raises.  Under Python 3
the assigned value is the string python3. -/
def pystrOpt (w : World) : Option String :=
  match w.pputils_env with
  | some _ => none
  | none => some "python3"

/-- The six positional file arguments read at lines 101 to 106. -/
structure Args where
  nodes_file : String
  boundary_file : String
  lines_file : String
  holes_file : String
  areas_file : String
  output_file : String
deriving DecidableEq

/-- Lines 100 to 111 of gis2mesh.py: when sys.argv has exactly 13
entries the files are read from positions 2, 4, 6, 8, 10 and 12; the
tokens at the odd positions are never inspected. -/
def parseArgs (argv : List String) : Option Args :=
  if argv.length = 13 then
    some ⟨argv.getD 2 "", argv.getD 4 "", argv.getD 6 "",
          argv.getD 8 "", argv.getD 10 "", argv.getD 12 ""⟩
  else
    none

/-- The argument vector passed to gis2triangle.py at lines 119 to 121. -/
def gis2triangleArgs (a : Args) : List String :=
  ["gis2triangle.py", "-n", a.nodes_file, "-b", a.boundary_file,
   "-l", a.lines_file, "-h", a.holes_file, "-o", "mesh.poly"]

/-- The argument vector passed to triangle2adcirc.py at lines 179 to 180. -/
def triangle2adcircArgs (a : Args) : List String :=
  ["triangle2adcirc.py", "-n", "mesh.1.node", "-e", "mesh.1.ele",
   "-o", a.output_file]

/-- Line 192 of gis2mesh.py: output_file.rsplit with separator dot and
count one, index 0, followed by WKT.csv. -/
def wkt_file (a : Args) : String :=
  let parts := a.output_file.splitOn "."
  (if parts.length = 1 then a.output_file
   else String.intercalate "." parts.dropLast) ++ "WKT.csv"

/-- The argument vector passed to adcirc2wkt.py at line 197. -/
def adcirc2wktArgs (a : Args) : List String :=
  ["adcirc2wkt.py", "-i", a.output_file, "-o", wkt_file a]

/-- The events of one helper script invocation wrapped in try and
except, as at lines 118 to 125: when the direct call raises nothing ran,
and the fallback runs the helper through the interpreter only when pystr
is defined. -/
def helperEvents (raises : Bool) (py : Option String) (cmd : List String) :
    List Event :=
  if raises then
    match py with
    | some p => [Event.subproc (p :: cmd)]
    | none => []
  else
    [Event.subproc cmd]

/-- Whether the try and except wrapper of a helper invocation dies with
an uncaught NameError: this happens exactly when the direct call raises
and pystr was never assigned. -/
def helperErr (raises : Bool) (py : Option String) : Option PyErr :=
  if raises then
    match py with
    | some _ => none
    | none => some PyErr.nameErrorPystr
  else
    none

/-- Lines 154 to 174 of gis2mesh.py: the subprocess events of the
Triangle stage.  On posix an unrecognized processor type produces no
event at all: the if chain has no else and control falls through. -/
def triangleEvents (w : World) : List Event :=
  if w.os_name = "posix" then
    if w.proctype = "i686" then
      [Event.subproc [pputils_path w ++ "/triangle/bin/triangle_32", "-Dqa", "mesh.poly"]]
    else if w.proctype = "x86_64" then
      [Event.subproc [pputils_path w ++ "/triangle/bin/triangle_64", "-Dqa", "mesh.poly"]]
    else if w.proctype = "armv7l" then
      [Event.subproc [pputils_path w ++ "/triangle/bin/triangle_pi32", "-Dqa", "mesh.poly"]]
    else
      []
  else if w.os_name = "nt" then
    [Event.subproc [".\\triangle\\bin\\triangle_32.exe", "-Dqa", "mesh.poly"]]
  else
    [Event.print "OS not supported!", Event.print "Exiting!"]

/-- Whether the Triangle stage ends the run: only the final else branch
at lines 171 to 174 calls sys.exit. -/
def triangleStop (w : World) : Bool :=
  if w.os_name = "posix" then false
  else if w.os_name = "nt" then false
  else true

/-- The three usage lines printed at lines 108 to 110. -/
def usageEvents : List Event :=
  [Event.print "Wrong number of Arguments, stopping now...",
   Event.print "Usage:",
   Event.print "python gis2mesh.py -n nodes.csv -b boundary.csv -l lines.csv -h holes.csv -a areas.csv -o mesh.grd"]

/-- The whole script, lines 100 to 199, as a function from the observed
environment to the event trace and the termination outcome.  The
branching mirrors the source: arity check, gis2triangle.py under try
and except, the unconditional np.loadtxt of the areas file, the append
of the area block, the platform dispatch for Triangle (whose exit status
is never read), triangle2adcirc.py, the four unguarded removals,
adcirc2wkt.py.  The removal of mesh.poly always succeeds; the removal of
mesh.1.poly at line 187 raises an uncaught error when the engine output
files are absent, aborting the run there. -/
def run (w : World) : List Event × Outcome :=
  match parseArgs w.argv with
  | none => (usageEvents, Outcome.sysExit)
  | some a =>
    let py := pystrOpt w
    let t1 := Event.print "Generating Triangle input files ..." ::
      helperEvents w.gis2triangle_direct_raises py (gis2triangleArgs a)
    match helperErr w.gis2triangle_direct_raises py with
    | some e => (t1, Outcome.uncaught e)
    | none =>
      match w.areas_readable with
      | false => (t1, Outcome.uncaught PyErr.areasLoadError)
      | true =>
        let t2 := t1 ++
          Event.appendAreas (num_areas w.areas_rows) (areaBlock w.areas_rows) ::
          triangleEvents w
        match triangleStop w with
        | true => (t2, Outcome.sysExit)
        | false =>
          let t3 := t2 ++
            Event.print "Converting Triangle output to ADCIRC mesh format ..." ::
            helperEvents w.triangle2adcirc_direct_raises py (triangle2adcircArgs a)
          match helperErr w.triangle2adcirc_direct_raises py with
          | some e => (t3, Outcome.uncaught e)
          | none =>
            match w.engine_outputs_exist with
            | false =>
              (t3 ++ [Event.remove "mesh.poly"],
               Outcome.uncaught PyErr.removeFileNotFound)
            | true =>
              let t4 := t3 ++
                Event.remove "mesh.poly" :: Event.remove "mesh.1.poly" ::
                Event.remove "mesh.1.node" :: Event.remove "mesh.1.ele" ::
                Event.print "Converting ADCIRC mesh to wkt format ..." ::
                helperEvents w.adcirc2wkt_direct_raises py (adcirc2wktArgs a)
              match helperErr w.adcirc2wkt_direct_raises py with
              | some e => (t4, Outcome.uncaught e)
              | none => (t4, Outcome.finished)

/-- The content of mesh.poly after the append at lines 138 to 151: the
lines gis2triangle.py wrote, then the lone newline, the count line and
the area records, in that order, at the end of the file. -/
def mesh_poly_after (w : World) : List PolyLine :=
  w.poly_before.map PolyLine.raw ++
    PolyLine.blank :: PolyLine.count (num_areas w.areas_rows) ::
    (areaBlock w.areas_rows).map PolyLine.area

/-- The files a trace removes, in order. -/
def removedFiles (tr : List Event) : List String :=
  tr.filterMap fun e =>
    match e with
    | Event.remove f => some f
    | _ => none

/-- Whether an event is an invocation of the Triangle engine: every such
invocation in the script has exactly the shape binary, -Dqa, mesh.poly. -/
def isEngineCall (e : Event) : Bool :=
  match e with
  | Event.subproc [_, f, p] => f == "-Dqa" && p == "mesh.poly"
  | _ => false

/-- The arguments read from a 13 entry argv, as one record. -/
def theArgs (w : World) : Args :=
  ⟨w.argv.getD 2 "", w.argv.getD 4 "", w.argv.getD 6 "",
   w.argv.getD 8 "", w.argv.getD 10 "", w.argv.getD 12 ""⟩

lemma parseArgs_eq (w : World) (h : w.argv.length = 13) :
    parseArgs w.argv = some (theArgs w) := by
  simp [parseArgs, theArgs, h]

/-- The tail of the event trace from the conversion stage onward,
depending on whether the triangle2adcirc.py wrapper dies and on whether
the engine output files exist at cleanup time. -/
def afterConv (w : World) : List Event :=
  match helperErr w.triangle2adcirc_direct_raises (pystrOpt w) with
  | some _ =>
    helperEvents w.triangle2adcirc_direct_raises (pystrOpt w)
      (triangle2adcircArgs (theArgs w))
  | none =>
    helperEvents w.triangle2adcirc_direct_raises (pystrOpt w)
      (triangle2adcircArgs (theArgs w)) ++
    (match w.engine_outputs_exist with
     | false => [Event.remove "mesh.poly"]
     | true =>
       Event.remove "mesh.poly" :: Event.remove "mesh.1.poly" ::
       Event.remove "mesh.1.node" :: Event.remove "mesh.1.ele" ::
       Event.print "Converting ADCIRC mesh to wkt format ..." ::
       helperEvents w.adcirc2wkt_direct_raises (pystrOpt w)
         (adcirc2wktArgs (theArgs w)))

lemma run_trace_eq (w : World) (h13 : w.argv.length = 13)
    (hg : w.gis2triangle_direct_raises = false)
    (hr : w.areas_readable = true) (hs : triangleStop w = false) :
    (run w).1 =
      Event.print "Generating Triangle input files ..." ::
      Event.subproc (gis2triangleArgs (theArgs w)) ::
      Event.appendAreas (num_areas w.areas_rows) (areaBlock w.areas_rows) ::
      (triangleEvents w ++
        Event.print "Converting Triangle output to ADCIRC mesh format ..." ::
        afterConv w) := by
  have hp := parseArgs_eq w h13
  cases henv : w.pputils_env <;>
    cases h2 : w.triangle2adcirc_direct_raises <;>
      cases h3 : w.adcirc2wkt_direct_raises <;>
        cases hout : w.engine_outputs_exist <;>
          simp [run, hp, hg, hr, hs, henv, h2, h3, hout, helperErr,
            helperEvents, afterConv, pystrOpt]

/-- The same world with a different Triangle engine exit status. -/
def withTriangleExit (w : World) (e : ℤ) : World :=
  ⟨w.argv, w.pputils_env, w.curdir, w.os_name, w.proctype, w.areas_readable,
   w.areas_rows, w.poly_before, w.gis2triangle_direct_raises,
   w.triangle2adcirc_direct_raises, w.adcirc2wkt_direct_raises, e,
   w.engine_outputs_exist⟩

/-- The same world with a different argument vector. -/
def withArgv (w : World) (v : List String) : World :=
  ⟨v, w.pputils_env, w.curdir, w.os_name, w.proctype, w.areas_readable,
   w.areas_rows, w.poly_before, w.gis2triangle_direct_raises,
   w.triangle2adcirc_direct_raises, w.adcirc2wkt_direct_raises,
   w.triangle_exit, w.engine_outputs_exist⟩

/-- A well formed 13 entry argument vector. -/
def goodArgv : List String :=
  ["gis2mesh.py", "-n", "nodes.csv", "-b", "boundary.csv", "-l", "lines.csv",
   "-h", "none", "-a", "areas.csv", "-o", "out.grd"]

def row1 : AreaRow := ⟨1, 2, 100⟩

def row2 : AreaRow := ⟨5, 6, 50⟩

/-- A fully healthy environment: PPUTILS unset, 64 bit linux, readable
one row areas file, no helper call raises, engine succeeds. -/
def wGood : World :=
  ⟨goodArgv, none, "/work", "posix", "x86_64", true, [row1], ["base"],
   false, false, false, 0, true⟩

/-- An invocation with a single argument. -/
def wBadArgs : World :=
  ⟨["gis2mesh.py"], none, "/work", "posix", "x86_64", true, [row1], [],
   false, false, false, 0, true⟩

/-- A healthy environment in which the Triangle engine exits with status
1 and writes none of its output files. -/
def wEngineFail : World :=
  ⟨goodArgv, none, "/work", "posix", "x86_64", true, [row1], [],
   false, false, false, 1, false⟩

/-- A posix machine whose processor type is aarch64, matching none of
the three recognized processor strings. -/
def wAarch64 : World :=
  ⟨goodArgv, none, "/work", "posix", "aarch64", true, [row1], [],
   false, false, false, 0, true⟩

/-- A Windows machine with PPUTILS set. -/
def wNT : World :=
  ⟨goodArgv, some "/opt/pputils", "/work", "nt", "", true, [row1], [],
   false, false, false, 0, true⟩

/-- PPUTILS set and the direct gis2triangle.py call raises. -/
def wEnvSet : World :=
  ⟨goodArgv, some "/opt/pputils", "/work", "posix", "x86_64", true, [row1], [],
   true, false, false, 0, true⟩

/-- An invocation passing the literal token none as the areas listing,
on a filesystem with no file named none, so np.loadtxt raises. -/
def wNone : World :=
  ⟨["gis2mesh.py", "-n", "nodes.csv", "-b", "boundary.csv", "-l", "none",
    "-h", "none", "-a", "none", "-o", "out.grd"],
   none, "/work", "posix", "x86_64", false, [], [],
   false, false, false, 0, true⟩

lemma removedFiles_nil : removedFiles [] = [] := rfl

lemma removedFiles_cons_print (m : String) (tr : List Event) :
    removedFiles (Event.print m :: tr) = removedFiles tr := rfl

lemma removedFiles_cons_subproc (c : List String) (tr : List Event) :
    removedFiles (Event.subproc c :: tr) = removedFiles tr := rfl

lemma removedFiles_cons_appendAreas (n : ℕ) (rs : List PolyAreaRecord)
    (tr : List Event) :
    removedFiles (Event.appendAreas n rs :: tr) = removedFiles tr := rfl

lemma removedFiles_cons_remove (f : String) (tr : List Event) :
    removedFiles (Event.remove f :: tr) = f :: removedFiles tr := rfl

lemma removedFiles_append (a b : List Event) :
    removedFiles (a ++ b) = removedFiles a ++ removedFiles b :=
  List.filterMap_append a b _

lemma removedFiles_helperEvents (raises : Bool) (py : Option String)
    (cmd : List String) :
    removedFiles (helperEvents raises py cmd) = [] := by
  cases raises <;> cases py <;> rfl

lemma removedFiles_triangleEvents (w : World) :
    removedFiles (triangleEvents w) = [] := by
  unfold removedFiles triangleEvents
  split_ifs <;> simp

/-- C1: the area constraint block is appended to mesh.poly as the last
block, prefixed by its element count, which is the number of rows of the
areas file; record i of the block (0 based) carries the 1 based
sequential id i + 1 together with the coordinates and maximum area of
row i; and on a supported platform the run invokes the external engine
with the flags -Dqa (Delaunay, quality, area constraints) whenever any
area row exists. -/
theorem areaBlock_count_ids_and_engine_flags (w : World) :
    (∀ (i : ℕ) (r : AreaRow), w.areas_rows[i]? = some r →
      (areaBlock w.areas_rows)[i]? =
        some (⟨i + 1, r.x, r.y, 0, r.area⟩ : PolyAreaRecord)) ∧
    (areaBlock w.areas_rows).length = num_areas w.areas_rows ∧
    mesh_poly_after w =
      w.poly_before.map PolyLine.raw ++
        PolyLine.blank :: PolyLine.count (num_areas w.areas_rows) ::
        (areaBlock w.areas_rows).map PolyLine.area ∧
    (w.argv.length = 13 → w.gis2triangle_direct_raises = false →
     w.areas_readable = true → w.os_name = "posix" → w.proctype = "x86_64" →
     w.areas_rows ≠ [] →
      Event.subproc [pputils_path w ++ "/triangle/bin/triangle_64", "-Dqa",
        "mesh.poly"] ∈ (run w).1) := by
  refine ⟨fun i r h => areaBlock_getElem?_eq _ _ _ h,
    (areaBlock_length _).trans rfl, rfl, ?_⟩
  intro h13 hg hr hos hproc _
  have hs : triangleStop w = false := by simp [triangleStop, hos]
  rw [run_trace_eq w h13 hg hr hs]
  have hm : Event.subproc [pputils_path w ++ "/triangle/bin/triangle_64",
      "-Dqa", "mesh.poly"] ∈ triangleEvents w := by
    simp [triangleEvents, hos, hproc]
  simp only [List.mem_cons, List.mem_append]
  tauto

theorem areaBlock_count_ids_and_engine_flags_witness :
    Event.subproc [pputils_path wGood ++ "/triangle/bin/triangle_64", "-Dqa",
      "mesh.poly"] ∈ (run wGood).1 :=
  (areaBlock_count_ids_and_engine_flags wGood).2.2.2 rfl rfl rfl rfl rfl
    (by decide)

/-- C3 fails on the code: in a healthy environment where the Triangle
engine exits with status 1 and writes no output files, the run does not
fail with TriangulationFailed before the conversion stage; it still
invokes the mesh format conversion stage, and only afterwards dies with
an uncaught file removal error at the os.remove of mesh.1.poly, having
already removed mesh.poly. -/
theorem engine_failure_ignored_cex :
    wEngineFail.triangle_exit = 1 ∧
    wEngineFail.engine_outputs_exist = false ∧
    Event.subproc (triangle2adcircArgs (theArgs wEngineFail))
      ∈ (run wEngineFail).1 ∧
    (run wEngineFail).2 = Outcome.uncaught PyErr.removeFileNotFound ∧
    removedFiles (run wEngineFail).1 = ["mesh.poly"] := by
  refine ⟨rfl, rfl, by decide, rfl, by decide⟩

/-- C3 amended: the script never inspects the engine exit status, so the
run is identical for every exit status, and it performs no output file
check before the conversion stage: whenever control reaches the Triangle
stage on a non exiting platform branch it proceeds unconditionally to
the mesh format conversion stage.  When the engine output files are
missing the run fails only later, at cleanup, with an uncaught error at
the os.remove of mesh.1.poly, after removing mesh.poly alone; there is
no TriangulationFailed diagnostic anywhere. -/
theorem engine_result_never_checked (w : World) (e : ℤ) :
    run (withTriangleExit w e) = run w ∧
    (w.argv.length = 13 → w.gis2triangle_direct_raises = false →
     w.areas_readable = true → triangleStop w = false →
      Event.print "Converting Triangle output to ADCIRC mesh format ..."
        ∈ (run w).1) ∧
    (w.argv.length = 13 → w.gis2triangle_direct_raises = false →
     w.areas_readable = true → triangleStop w = false →
     w.triangle2adcirc_direct_raises = false →
     w.engine_outputs_exist = false →
      (run w).2 = Outcome.uncaught PyErr.removeFileNotFound ∧
      removedFiles (run w).1 = ["mesh.poly"]) := by
  refine ⟨rfl, ?_, ?_⟩
  · intro h13 hg hr hs
    rw [run_trace_eq w h13 hg hr hs]
    simp only [List.mem_cons, List.mem_append]
    tauto
  · intro h13 hg hr hs ht hout
    have hp := parseArgs_eq w h13
    constructor <;>
      simp [run, hp, hg, hr, hs, ht, hout, helperErr, helperEvents,
        removedFiles_append, removedFiles_cons_print, removedFiles_cons_subproc,
        removedFiles_cons_appendAreas, removedFiles_cons_remove,
        removedFiles_nil, removedFiles_helperEvents, removedFiles_triangleEvents]

theorem engine_result_never_checked_witness :
    run (withTriangleExit wGood 1) = run wGood ∧
    Event.print "Converting Triangle output to ADCIRC mesh format ..."
      ∈ (run wGood).1 ∧
    (run wEngineFail).2 = Outcome.uncaught PyErr.removeFileNotFound :=
  ⟨(engine_result_never_checked wGood 1).1,
   (engine_result_never_checked wGood 1).2.1 rfl rfl rfl rfl,
   ((engine_result_never_checked wEngineFail 1).2.2 rfl rfl rfl rfl rfl
      rfl).1⟩

/-- C4 fails on the code: on a posix system whose processor type is
aarch64 the run does not fail; it silently skips the Triangle
invocation (no event of engine call shape occurs), still runs the
conversion stage, and finishes with exit status 0. -/
theorem posix_unknown_proctype_skips_cex :
    wAarch64.os_name = "posix" ∧
    wAarch64.proctype = "aarch64" ∧
    (run wAarch64).1.any isEngineCall = false ∧
    (run wAarch64).2 = Outcome.finished ∧
    Event.print "Converting Triangle output to ADCIRC mesh format ..."
      ∈ (run wAarch64).1 := by
  refine ⟨rfl, rfl, by decide, rfl, by decide⟩

/-- C4 amended: the dispatch covers four variants (posix i686, posix
x86_64, posix armv7l, and Windows); an operating system that is neither
posix nor nt is rejected with a diagnostic and an early sys.exit; but a
posix system with an unrecognized processor type silently skips the
Triangle invocation and proceeds to the conversion stage instead of
failing. -/
theorem platform_dispatch_behavior (w : World)
    (h13 : w.argv.length = 13) (hg : w.gis2triangle_direct_raises = false)
    (hr : w.areas_readable = true) :
    (w.os_name = "posix" → w.proctype = "i686" →
      triangleEvents w = [Event.subproc [pputils_path w ++
        "/triangle/bin/triangle_32", "-Dqa", "mesh.poly"]]) ∧
    (w.os_name = "posix" → w.proctype = "x86_64" →
      triangleEvents w = [Event.subproc [pputils_path w ++
        "/triangle/bin/triangle_64", "-Dqa", "mesh.poly"]]) ∧
    (w.os_name = "posix" → w.proctype = "armv7l" →
      triangleEvents w = [Event.subproc [pputils_path w ++
        "/triangle/bin/triangle_pi32", "-Dqa", "mesh.poly"]]) ∧
    (w.os_name = "nt" →
      triangleEvents w = [Event.subproc [".\\triangle\\bin\\triangle_32.exe",
        "-Dqa", "mesh.poly"]]) ∧
    (w.os_name ≠ "posix" → w.os_name ≠ "nt" →
      run w = (Event.print "Generating Triangle input files ..." ::
        Event.subproc (gis2triangleArgs (theArgs w)) ::
        Event.appendAreas (num_areas w.areas_rows) (areaBlock w.areas_rows) ::
        [Event.print "OS not supported!", Event.print "Exiting!"],
        Outcome.sysExit)) ∧
    (w.os_name = "posix" → w.proctype ≠ "i686" → w.proctype ≠ "x86_64" →
     w.proctype ≠ "armv7l" →
      (run w).1.any isEngineCall = false ∧
      Event.print "Converting Triangle output to ADCIRC mesh format ..."
        ∈ (run w).1) := by
  have hp := parseArgs_eq w h13
  refine ⟨fun hos hpr => by simp [triangleEvents, hos, hpr],
    fun hos hpr => by simp [triangleEvents, hos, hpr],
    fun hos hpr => by simp [triangleEvents, hos, hpr],
    fun hos => by simp [triangleEvents, hos],
    fun hos hnt => by
      simp [run, hp, hg, hr, helperErr, helperEvents, triangleStop,
        triangleEvents, hos, hnt],
    ?_⟩
  intro hos h1 h2 h3
  have hs : triangleStop w = false := by simp [triangleStop, hos]
  have hte : triangleEvents w = [] := by
    simp [triangleEvents, hos, h1, h2, h3]
  constructor
  · rw [run_trace_eq w h13 hg hr hs, hte]
    cases henv : w.pputils_env <;>
      cases ht2 : w.triangle2adcirc_direct_raises <;>
        cases ha2 : w.adcirc2wkt_direct_raises <;>
          cases hout : w.engine_outputs_exist <;>
            simp [afterConv, helperErr, helperEvents, pystrOpt, henv, ht2, ha2,
              hout, isEngineCall, gis2triangleArgs, triangle2adcircArgs,
              adcirc2wktArgs]
  · rw [run_trace_eq w h13 hg hr hs]
    simp only [List.mem_cons, List.mem_append]
    tauto

theorem platform_dispatch_behavior_witness :
    (run wAarch64).1.any isEngineCall = false ∧
    Event.print "Converting Triangle output to ADCIRC mesh format ..."
      ∈ (run wAarch64).1 :=
  (platform_dispatch_behavior wAarch64 rfl rfl rfl).2.2.2.2.2 rfl
    (by decide) (by decide) (by decide)

/-- C5: the code contradicts its own usage documentation here.  When the
areas listing is the literal token none, line 128 still executes
np.loadtxt on the path none; with no such file the call raises and the
run dies with an uncaught exception before the area block is appended,
instead of treating area constraints as absent. -/
theorem areas_none_crashes :
    wNone.argv.getD 10 "" = "none" ∧
    wNone.areas_readable = false ∧
    run wNone = ([Event.print "Generating Triangle input files ...",
      Event.subproc ["gis2triangle.py", "-n", "nodes.csv", "-b",
        "boundary.csv", "-l", "none", "-h", "none", "-o", "mesh.poly"]],
      Outcome.uncaught PyErr.areasLoadError) :=
  ⟨rfl, rfl, by decide⟩

/-- C6: with a wrong argument count the run prints exactly the three
usage lines and terminates early through sys.exit before any pipeline
stage runs (no subprocess, append or removal event occurs); with 13
arguments and a fully successful pipeline (helper wrappers succeed, a
supported platform, and the engine wrote its output files so the
cleanup removals succeed) the script falls off the end, exiting with
status 0.  The bare sys.exit call also carries exit status 0, i.e. the
early termination disjunct of the claim is the one that holds. -/
theorem cli_arity_exit_behavior (w : World) :
    (w.argv.length ≠ 13 → run w = (usageEvents, Outcome.sysExit)) ∧
    (w.argv.length = 13 → w.gis2triangle_direct_raises = false →
     w.areas_readable = true → triangleStop w = false →
     w.triangle2adcirc_direct_raises = false →
     w.engine_outputs_exist = true →
     w.adcirc2wkt_direct_raises = false →
      (run w).2 = Outcome.finished) := by
  constructor
  · intro h
    simp [run, parseArgs, h]
  · intro h13 hg hr hs ht hout ha
    have hp := parseArgs_eq w h13
    simp [run, hp, hg, hr, hs, ht, hout, ha, helperErr]

theorem cli_arity_exit_behavior_witness :
    run wBadArgs = (usageEvents, Outcome.sysExit) ∧
    (run wGood).2 = Outcome.finished :=
  ⟨(cli_arity_exit_behavior wBadArgs).1 (by decide),
   (cli_arity_exit_behavior wGood).2 rfl rfl rfl rfl rfl rfl rfl⟩

/-- C7: on the success path (the engine wrote its output files, so all
four unguarded removals succeed) the run removes exactly the four run
scoped intermediate files mesh.poly, mesh.1.poly, mesh.1.node and
mesh.1.ele, and the removals sit after the conversion stage invocation
that consumed them; cleanup is reached only on that straight line path:
every run that aborts earlier (wrong arity, unreadable areas file,
NameError in the gis2triangle wrapper, unsupported operating system,
NameError in the triangle2adcirc wrapper) removes nothing, and when the
engine output files are absent the cleanup itself aborts after removing
only mesh.poly. -/
theorem cleanup_success_path_only (w : World) :
    (w.argv.length = 13 → w.gis2triangle_direct_raises = false →
     w.areas_readable = true → w.os_name = "posix" → w.proctype = "x86_64" →
     w.triangle2adcirc_direct_raises = false →
     w.engine_outputs_exist = true →
     w.adcirc2wkt_direct_raises = false →
      run w =
        ([Event.print "Generating Triangle input files ...",
          Event.subproc (gis2triangleArgs (theArgs w)),
          Event.appendAreas (num_areas w.areas_rows) (areaBlock w.areas_rows),
          Event.subproc [pputils_path w ++ "/triangle/bin/triangle_64",
            "-Dqa", "mesh.poly"],
          Event.print "Converting Triangle output to ADCIRC mesh format ...",
          Event.subproc (triangle2adcircArgs (theArgs w)),
          Event.remove "mesh.poly", Event.remove "mesh.1.poly",
          Event.remove "mesh.1.node", Event.remove "mesh.1.ele",
          Event.print "Converting ADCIRC mesh to wkt format ...",
          Event.subproc (adcirc2wktArgs (theArgs w))], Outcome.finished) ∧
        removedFiles (run w).1 =
          ["mesh.poly", "mesh.1.poly", "mesh.1.node", "mesh.1.ele"]) ∧
    (w.argv.length ≠ 13 → removedFiles (run w).1 = []) ∧
    (w.argv.length = 13 → w.gis2triangle_direct_raises = false →
     w.areas_readable = false →
      removedFiles (run w).1 = [] ∧
      (run w).2 = Outcome.uncaught PyErr.areasLoadError) ∧
    (w.argv.length = 13 → w.gis2triangle_direct_raises = true →
     pystrOpt w = none →
      removedFiles (run w).1 = [] ∧
      (run w).2 = Outcome.uncaught PyErr.nameErrorPystr) ∧
    (w.argv.length = 13 → w.gis2triangle_direct_raises = false →
     w.areas_readable = true → triangleStop w = true →
      removedFiles (run w).1 = [] ∧ (run w).2 = Outcome.sysExit) ∧
    (w.argv.length = 13 → w.gis2triangle_direct_raises = false →
     w.areas_readable = true → triangleStop w = false →
     w.triangle2adcirc_direct_raises = true → pystrOpt w = none →
      removedFiles (run w).1 = []) ∧
    (w.argv.length = 13 → w.gis2triangle_direct_raises = false →
     w.areas_readable = true → triangleStop w = false →
     w.triangle2adcirc_direct_raises = false →
     w.engine_outputs_exist = false →
      removedFiles (run w).1 = ["mesh.poly"] ∧
      (run w).2 = Outcome.uncaught PyErr.removeFileNotFound) := by
  refine ⟨?_, ?_, ?_, ?_, ?_, ?_, ?_⟩
  · intro h13 hg hr hos hproc ht hout ha
    have hp := parseArgs_eq w h13
    have hgoal : run w =
        ([Event.print "Generating Triangle input files ...",
          Event.subproc (gis2triangleArgs (theArgs w)),
          Event.appendAreas (num_areas w.areas_rows) (areaBlock w.areas_rows),
          Event.subproc [pputils_path w ++ "/triangle/bin/triangle_64",
            "-Dqa", "mesh.poly"],
          Event.print "Converting Triangle output to ADCIRC mesh format ...",
          Event.subproc (triangle2adcircArgs (theArgs w)),
          Event.remove "mesh.poly", Event.remove "mesh.1.poly",
          Event.remove "mesh.1.node", Event.remove "mesh.1.ele",
          Event.print "Converting ADCIRC mesh to wkt format ...",
          Event.subproc (adcirc2wktArgs (theArgs w))], Outcome.finished) := by
      simp [run, hp, hg, hr, hos, hproc, ht, hout, ha, helperErr,
        helperEvents, triangleEvents, triangleStop]
    refine ⟨hgoal, ?_⟩
    rw [hgoal]
    simp [removedFiles]
  · intro h
    simp [run, parseArgs, h, removedFiles, usageEvents]
  · intro h13 hg hr
    have hp := parseArgs_eq w h13
    constructor <;>
      simp [run, hp, hg, hr, helperErr, helperEvents, removedFiles]
  · intro h13 hg hpy
    have hp := parseArgs_eq w h13
    constructor <;>
      simp [run, hp, hg, hpy, helperErr, helperEvents, removedFiles]
  · intro h13 hg hr hs
    have hp := parseArgs_eq w h13
    constructor <;>
      simp [run, hp, hg, hr, hs, helperErr, helperEvents,
        removedFiles_append, removedFiles_cons_print, removedFiles_cons_subproc,
        removedFiles_cons_appendAreas, removedFiles_nil,
        removedFiles_helperEvents, removedFiles_triangleEvents]
  · intro h13 hg hr hs ht hpy
    have hp := parseArgs_eq w h13
    simp [run, hp, hg, hr, hs, ht, hpy, helperErr, helperEvents,
      removedFiles_append, removedFiles_cons_print, removedFiles_cons_subproc,
      removedFiles_cons_appendAreas, removedFiles_nil,
      removedFiles_helperEvents, removedFiles_triangleEvents]
  · intro h13 hg hr hs ht hout
    have hp := parseArgs_eq w h13
    constructor <;>
      simp [run, hp, hg, hr, hs, ht, hout, helperErr, helperEvents,
        removedFiles_append, removedFiles_cons_print, removedFiles_cons_subproc,
        removedFiles_cons_appendAreas, removedFiles_cons_remove,
        removedFiles_nil, removedFiles_helperEvents, removedFiles_triangleEvents]

theorem cleanup_success_path_only_witness :
    removedFiles (run wGood).1 =
      ["mesh.poly", "mesh.1.poly", "mesh.1.node", "mesh.1.ele"] ∧
    removedFiles (run wBadArgs).1 = [] ∧
    removedFiles (run wEngineFail).1 = ["mesh.poly"] :=
  ⟨((cleanup_success_path_only wGood).1 rfl rfl rfl rfl rfl rfl rfl rfl).2,
   (cleanup_success_path_only wBadArgs).2.1 (by decide),
   ((cleanup_success_path_only wEngineFail).2.2.2.2.2.2 rfl rfl rfl rfl rfl
      rfl).1⟩

/-- The binary paths of the engine invocations a trace contains. -/
def enginePaths (tr : List Event) : List String :=
  tr.filterMap fun e =>
    match e with
    | Event.subproc [bin, f, p] =>
      if f == "-Dqa" && p == "mesh.poly" then some bin else none
    | _ => none

/-- C8 fails on the code for the Windows variant: with the installation
root set to /opt/pputils, an nt run invokes the engine at the hardcoded
relative path, which does not start with the root. -/
theorem nt_binary_ignores_root_cex :
    wNT.pputils_env = some "/opt/pputils" ∧
    wNT.os_name = "nt" ∧
    enginePaths (run wNT).1 = [".\\triangle\\bin\\triangle_32.exe"] ∧
    "/opt/pputils".data.isPrefixOf ".\\triangle\\bin\\triangle_32.exe".data
      = false := by
  refine ⟨rfl, rfl, by decide, by decide⟩

/-- C8 amended: the installation root is the PPUTILS environment
variable when set and the current working directory otherwise, and the
engine binary path is that root followed by the fixed relative path
/triangle/bin/... for each of the three posix variants; the Windows
variant instead uses the fixed relative path .\triangle\bin\
triangle_32.exe, which does not involve the root at all. -/
theorem binary_path_selection (w : World) :
    (∀ p : String, w.pputils_env = some p → pputils_path w = p) ∧
    (w.pputils_env = none → pputils_path w = w.curdir) ∧
    (w.os_name = "posix" → w.proctype = "i686" →
      enginePaths (triangleEvents w) =
        [pputils_path w ++ "/triangle/bin/triangle_32"]) ∧
    (w.os_name = "posix" → w.proctype = "x86_64" →
      enginePaths (triangleEvents w) =
        [pputils_path w ++ "/triangle/bin/triangle_64"]) ∧
    (w.os_name = "posix" → w.proctype = "armv7l" →
      enginePaths (triangleEvents w) =
        [pputils_path w ++ "/triangle/bin/triangle_pi32"]) ∧
    (w.os_name = "nt" →
      enginePaths (triangleEvents w) = [".\\triangle\\bin\\triangle_32.exe"]) := by
  refine ⟨fun p hp => by simp [pputils_path, hp],
    fun hp => by simp [pputils_path, hp],
    fun hos hpr => by simp [enginePaths, triangleEvents, hos, hpr],
    fun hos hpr => by simp [enginePaths, triangleEvents, hos, hpr],
    fun hos hpr => by simp [enginePaths, triangleEvents, hos, hpr],
    fun hos => by simp [enginePaths, triangleEvents, hos]⟩

theorem binary_path_selection_witness :
    pputils_path wNT = "/opt/pputils" ∧
    enginePaths (triangleEvents wNT) = [".\\triangle\\bin\\triangle_32.exe"] ∧
    pputils_path wGood = "/work" :=
  ⟨(binary_path_selection wNT).1 "/opt/pputils" rfl,
   (binary_path_selection wNT).2.2.2.2.2 rfl,
   (binary_path_selection wGood).2.1 rfl⟩

/-- C9: pystr is assigned only when the PPUTILS lookup raises, so in a
run with PPUTILS set the name is undefined; if a direct helper call then
raises, the fallback branch dies with an uncaught NameError instead of
retrying the helper through the interpreter.  The explicit traces show
no interpreter prefixed invocation occurs at any of the three sites. -/
theorem pystr_undefined_fallback (w : World) (p : String)
    (henv : w.pputils_env = some p) (h13 : w.argv.length = 13) :
    pystrOpt w = none ∧
    (w.gis2triangle_direct_raises = true →
      run w = ([Event.print "Generating Triangle input files ..."],
        Outcome.uncaught PyErr.nameErrorPystr)) ∧
    (w.gis2triangle_direct_raises = false → w.areas_readable = true →
     w.os_name = "posix" → w.proctype = "x86_64" →
     w.triangle2adcirc_direct_raises = true →
      run w = ([Event.print "Generating Triangle input files ...",
        Event.subproc (gis2triangleArgs (theArgs w)),
        Event.appendAreas (num_areas w.areas_rows) (areaBlock w.areas_rows),
        Event.subproc [pputils_path w ++ "/triangle/bin/triangle_64",
          "-Dqa", "mesh.poly"],
        Event.print "Converting Triangle output to ADCIRC mesh format ..."],
        Outcome.uncaught PyErr.nameErrorPystr)) ∧
    (w.gis2triangle_direct_raises = false → w.areas_readable = true →
     w.os_name = "posix" → w.proctype = "x86_64" →
     w.triangle2adcirc_direct_raises = false →
     w.engine_outputs_exist = true →
     w.adcirc2wkt_direct_raises = true →
      run w = ([Event.print "Generating Triangle input files ...",
        Event.subproc (gis2triangleArgs (theArgs w)),
        Event.appendAreas (num_areas w.areas_rows) (areaBlock w.areas_rows),
        Event.subproc [pputils_path w ++ "/triangle/bin/triangle_64",
          "-Dqa", "mesh.poly"],
        Event.print "Converting Triangle output to ADCIRC mesh format ...",
        Event.subproc (triangle2adcircArgs (theArgs w)),
        Event.remove "mesh.poly", Event.remove "mesh.1.poly",
        Event.remove "mesh.1.node", Event.remove "mesh.1.ele",
        Event.print "Converting ADCIRC mesh to wkt format ..."],
        Outcome.uncaught PyErr.nameErrorPystr)) := by
  have hp := parseArgs_eq w h13
  have hpy : pystrOpt w = none := by simp [pystrOpt, henv]
  refine ⟨hpy, ?_, ?_, ?_⟩
  · intro hg
    simp [run, hp, hg, hpy, helperErr, helperEvents]
  · intro hg hr hos hpr ht
    simp [run, hp, hg, hr, hos, hpr, ht, hpy, helperErr, helperEvents,
      triangleEvents, triangleStop]
  · intro hg hr hos hpr ht hout ha
    simp [run, hp, hg, hr, hos, hpr, ht, hout, ha, hpy, helperErr,
      helperEvents, triangleEvents, triangleStop]

theorem pystr_undefined_fallback_witness :
    run wEnvSet = ([Event.print "Generating Triangle input files ..."],
      Outcome.uncaught PyErr.nameErrorPystr) :=
  (pystr_undefined_fallback wEnvSet "/opt/pputils" rfl rfl).2.1 rfl

/-- A 13 entry argument vector whose even positions agree with goodArgv
while every odd flag position holds a wrong or scrambled label. -/
def scrambledArgv : List String :=
  ["gis2mesh.py", "-o", "nodes.csv", "-h", "boundary.csv", "-a", "lines.csv",
   "-x", "none", "-q", "areas.csv", "-z", "out.grd"]

/-- C10: argument parsing is purely positional.  Two 13 entry argument
vectors agreeing at positions 2, 4, 6, 8, 10 and 12 parse identically
and produce identical runs in the same environment: the flag tokens at
the odd positions are never inspected. -/
theorem positional_arg_parsing (a b : List String)
    (ha : a.length = 13) (hb : b.length = 13)
    (h2 : a.getD 2 "" = b.getD 2 "") (h4 : a.getD 4 "" = b.getD 4 "")
    (h6 : a.getD 6 "" = b.getD 6 "") (h8 : a.getD 8 "" = b.getD 8 "")
    (h10 : a.getD 10 "" = b.getD 10 "") (h12 : a.getD 12 "" = b.getD 12 "") :
    parseArgs a = parseArgs b ∧
    parseArgs a = some ⟨a.getD 2 "", a.getD 4 "", a.getD 6 "", a.getD 8 "",
      a.getD 10 "", a.getD 12 ""⟩ ∧
    (∀ w : World, run (withArgv w a) = run (withArgv w b)) := by
  have hpa : parseArgs a = some ⟨a.getD 2 "", a.getD 4 "", a.getD 6 "",
      a.getD 8 "", a.getD 10 "", a.getD 12 ""⟩ := by
    simp [parseArgs, ha]
  have hpb : parseArgs b = some ⟨b.getD 2 "", b.getD 4 "", b.getD 6 "",
      b.getD 8 "", b.getD 10 "", b.getD 12 ""⟩ := by
    simp [parseArgs, hb]
  have hab : parseArgs a = parseArgs b := by
    rw [hpa, hpb, h2, h4, h6, h8, h10, h12]
  refine ⟨hab, hpa, ?_⟩
  intro w
  have hl : parseArgs ((withArgv w a).argv) = parseArgs ((withArgv w b).argv) :=
    hab
  cases w
  unfold run
  rw [hl]
  exact rfl

theorem positional_arg_parsing_witness :
    parseArgs goodArgv = parseArgs scrambledArgv ∧
    run (withArgv wGood goodArgv) = run (withArgv wGood scrambledArgv) :=
  ⟨(positional_arg_parsing goodArgv scrambledArgv rfl rfl rfl rfl rfl rfl rfl
      rfl).1,
   (positional_arg_parsing goodArgv scrambledArgv rfl rfl rfl rfl rfl rfl rfl
      rfl).2.2 wGood⟩

end Gis2Mesh
